import Mathlib

/-!
Verification of the PSID panel-construction library (`src/psid`).

The Python modules `sample.py`, `panel.py`, `transitions.py` and the
identity derivation in `load.py`/`panel.py` are shallowly embedded below:
pure functions become Lean functions on `Int`/`Nat`/`List`, pandas tables
become lists of observation records, and Python values that may be
`None` or `NaN` are embedded as the three-valued type `PyVal` together
with Python's equality semantics (`None == None` is `True`,
`NaN == NaN` is `False`).
-/

namespace PSID

/-! ## Sample classifier (`sample.py`) -/

/-- Embedding of the `SampleType` enum of `sample.py`. -/
inductive SampleType where
  | SRC
  | SEO
  | IMMIGRANT
  | LATINO
  | UNKNOWN
deriving DecidableEq, Repr

/-- Embedding of the `SAMPLE_RANGES` dict of `sample.py`, in insertion
order (Python dicts iterate in insertion order). Each stratum maps to a
list of inclusive `(low, high)` ranges of ER30001 codes. -/
def SAMPLE_RANGES : List (SampleType × List (Int × Int)) :=
  [ (SampleType.SRC, [(1, 2999)]),
    (SampleType.SEO, [(5001, 6872)]),
    (SampleType.IMMIGRANT, [(3001, 3511), (4001, 4462), (7001, 9308)]) ]

/-- Inner loop of `get_sample_type`: does any inclusive range of the
list contain the code? -/
def inAnyRange (code : Int) : List (Int × Int) → Bool
  | [] => false
  | (low, high) :: rest =>
      if low ≤ code ∧ code ≤ high then true else inAnyRange code rest

/-- Outer loop of `get_sample_type`: return the first stratum one of
whose ranges contains the code. -/
def scanRanges (code : Int) : List (SampleType × List (Int × Int)) → Option SampleType
  | [] => none
  | (st, ranges) :: rest =>
      if inAnyRange code ranges then some st else scanRanges code rest

/-- Embedding of `get_sample_type` of `sample.py`: scan `SAMPLE_RANGES`
in order, returning the first stratum whose range contains the code,
and `UNKNOWN` when none does. -/
def get_sample_type (er30001 : Int) : SampleType :=
  match scanRanges er30001 SAMPLE_RANGES with
  | some st => st
  | none => SampleType.UNKNOWN

/-- Ranges recorded for one stratum in `SAMPLE_RANGES` (empty when the
stratum has no entry). -/
def rangesOf (st : SampleType) : List (Int × Int) :=
  match (SAMPLE_RANGES.find? (fun p => p.1 == st)) with
  | some p => p.2
  | none => []

/-! ## Identity resolver (`panel.py` line 260, `load.py` lines 283-284) -/

/-- Signed 64-bit wraparound: numpy integer Series arithmetic is
int64 and wraps silently on overflow, taking a value to its
representative in `[-2^63, 2^63)`. -/
def toInt64 (x : Int) : Int :=
  (x + 2 ^ 63) % 2 ^ 64 - 2 ^ 63

/-- Embedding of the derived person identifier
`person_id = ER30001 * 1000 + ER30002` computed in `build_panel`
(`panel.py` line 260) and in `load_individual` (`load.py` line 284).
Both sites compute on pandas Series of numpy int64 dtype, so the
multiply-add is int64 arithmetic and wraps on overflow (wrapping the
intermediate product and then the sum equals wrapping the exact
multiply-add once, since the modulus is shared). -/
def resolve_identity (baselineId seq : Int) : Int :=
  toInt64 (baselineId * 1000 + seq)

/-! ## Python value semantics for the transition classifier -/

/-- A Python value as seen by `_classify_transition`: an integer code,
the value `None` (a column absent from the row, the default of
`Series.get`), or the float `NaN` (a missing value inside a present
column). -/
inductive PyVal where
  | vint (n : Int)
  | none
  | nan
deriving DecidableEq, Repr

/-- Python `==` on `PyVal`: integers compare by value, `None == None`
is `True`, and every comparison involving `NaN` is `False` (as is any
cross-kind comparison such as `None == 3`). -/
def pyEq : PyVal → PyVal → Bool
  | PyVal.vint a, PyVal.vint b => a == b
  | PyVal.none, PyVal.none => true
  | _, _ => false

/-- Python `x == k` against an integer literal `k`. -/
def pyEqInt : PyVal → Int → Bool
  | PyVal.vint a, k => a == k
  | _, _ => false

/-- Python `x in (k1, k2, ...)` against a tuple of integer literals
(membership tests with `==`, so `None` and `NaN` are in no tuple of
integers). -/
def pyIn (v : PyVal) (ks : List Int) : Bool :=
  ks.any (fun k => pyEqInt v k)

/-- Python `x is not None`. -/
def pyIsNotNone : PyVal → Bool
  | PyVal.none => false
  | _ => true

/-! ## Transition classifier (`transitions.py`) -/

/-- Embedding of the `TransitionType` enum of `transitions.py`
(all eleven declared members). -/
inductive TransitionType where
  | same_household
  | marriage
  | divorce
  | widowhood
  | leave_parental
  | splitoff
  | join_household
  | move_with_family
  | death
  | birth
  | other
deriving DecidableEq, Repr

/-- Tail of `_classify_transition` after the first relationship block
(`transitions.py` lines 217-225): the join-household check, else OTHER. -/
def classifyRelTail (relFrom relTo : PyVal) : TransitionType :=
  if pyIsNotNone relFrom ∧ pyIsNotNone relTo then
    if pyEqInt relFrom 1 ∧ ¬ pyEqInt relTo 1 then TransitionType.join_household
    else TransitionType.other
  else TransitionType.other

/-- Tail of `_classify_transition` from the first relationship block on
(`transitions.py` lines 205-225): leave-parental, splitoff, then the
second relationship block. -/
def classifyRel (relFrom relTo : PyVal) : TransitionType :=
  if pyIsNotNone relFrom ∧ pyIsNotNone relTo then
    if pyEqInt relFrom 3 ∧ pyEqInt relTo 1 then TransitionType.leave_parental
    else if ¬ pyEqInt relFrom 1 ∧ pyEqInt relTo 1 then TransitionType.splitoff
    else classifyRelTail relFrom relTo
  else classifyRelTail relFrom relTo

/-- Embedding of `_classify_transition` of `transitions.py` (lines
154-225). Early `return` statements are rendered as a nested
conditional; the unused `age_from`/`age_to` parameters of the Python
function are kept. -/
def classify_transition (hhFrom hhTo relFrom relTo marFrom marTo ageFrom ageTo : PyVal) :
    TransitionType :=
  if pyEq hhFrom hhTo then TransitionType.same_household
  else if pyIsNotNone marFrom ∧ pyIsNotNone marTo then
    if pyIn marFrom [2, 4, 5] ∧ pyEqInt marTo 1 then TransitionType.marriage
    else if pyEqInt marFrom 1 ∧ pyIn marTo [4, 5] then TransitionType.divorce
    else if pyEqInt marFrom 1 ∧ pyEqInt marTo 3 then TransitionType.widowhood
    else classifyRel relFrom relTo
  else classifyRel relFrom relTo

/-- Decision procedure written from the specification text of claim C1:
a single first-match-wins rule chain evaluated in the order
1, 2a, 2b, 2c, 3a, 3b, 3c, 4. Used only to be compared with
`classify_transition`. -/
def classify_transition_ruleChain (hhFrom hhTo relFrom relTo marFrom marTo : PyVal) :
    TransitionType :=
  if pyEq hhFrom hhTo then TransitionType.same_household
  else if pyIsNotNone marFrom ∧ pyIsNotNone marTo ∧ pyIn marFrom [2, 4, 5] ∧ pyEqInt marTo 1 then
    TransitionType.marriage
  else if pyIsNotNone marFrom ∧ pyIsNotNone marTo ∧ pyEqInt marFrom 1 ∧ pyIn marTo [4, 5] then
    TransitionType.divorce
  else if pyIsNotNone marFrom ∧ pyIsNotNone marTo ∧ pyEqInt marFrom 1 ∧ pyEqInt marTo 3 then
    TransitionType.widowhood
  else if pyIsNotNone relFrom ∧ pyIsNotNone relTo ∧ pyEqInt relFrom 3 ∧ pyEqInt relTo 1 then
    TransitionType.leave_parental
  else if pyIsNotNone relFrom ∧ pyIsNotNone relTo ∧ ¬ pyEqInt relFrom 1 ∧ pyEqInt relTo 1 then
    TransitionType.splitoff
  else if pyIsNotNone relFrom ∧ pyIsNotNone relTo ∧ pyEqInt relFrom 1 ∧ ¬ pyEqInt relTo 1 then
    TransitionType.join_household
  else TransitionType.other

/-! ## Panel data model (`panel.py`) -/

/-- One row of the person-year table held by a `Panel`: the person
identifier, the survey year, and the columns the transition extraction
reads (household interview number, relationship to head, marital
status), each of which may be absent or missing. -/
structure Obs where
  pid : Int
  year : Int
  hh : PyVal := PyVal.none
  rel : PyVal := PyVal.none
  mar : PyVal := PyVal.none
deriving DecidableEq, Repr

/-- Embedding of the `Panel` dataclass of `panel.py`: the person-year
table in row order (the id and time column names are fixed to the
`person_id`/`year` defaults in this model). -/
structure Panel where
  data : List Obs
deriving DecidableEq, Repr

/-- Ordering of observations by year, used to model
`sort_values` by the time column. -/
def byYear (a b : Obs) : Prop := a.year ≤ b.year

instance : DecidableRel byYear := fun a b => Int.decLe a.year b.year

instance : IsTotal Obs byYear := ⟨fun a b => Int.le_total a.year b.year⟩

instance : IsTrans Obs byYear := ⟨fun _ _ _ h h' => le_trans h h'⟩

/-- Rows of one person, in table order (`df.groupby(panel.id_col)`
group content). -/
def personObs (p : Panel) (pid : Int) : List Obs :=
  p.data.filter (fun o => o.pid == pid)

/-- The distinct person ids of the table in ascending order, as
`groupby` iterates its keys. -/
def uniquePids (p : Panel) : List Int :=
  List.insertionSort (fun a b => a ≤ b) (p.data.map (fun o => o.pid)).dedup

/-- Adjacent pairs of a list: the pairing of each row with the next row
of the same sorted group performed by the
`for i in range(len(group) - 1)` loop of `get_household_transitions`. -/
def adjPairs : List Obs → List (Obs × Obs)
  | a :: b :: rest => (a, b) :: adjPairs (b :: rest)
  | _ => []

/-- Transition rows of one person (`transitions.py` lines 102-149):
the person's rows sorted by year, paired consecutively. The emitted
record keeps the two observations; the classifier of the pair is
`classify_transition` applied to their fields. -/
def transitionsOf (p : Panel) (pid : Int) : List (Obs × Obs) :=
  adjPairs (List.insertionSort byYear (personObs p pid))

/-- Embedding of `get_household_transitions` of `transitions.py`:
concatenation of every person's transition rows, persons in the order
`groupby` yields them. (The Python `len(group) < 2 → continue` guard is
subsumed: `adjPairs` of a one-row group is empty.) -/
def get_household_transitions (p : Panel) : List (Obs × Obs) :=
  (uniquePids p).flatMap (fun pid => transitionsOf p pid)

/-- Number of observations of one person
(`groupby(id)[time].count()`; the year column has no missing values in
this model). -/
def countObs (p : Panel) (pid : Int) : Nat :=
  (personObs p pid).length

/-- The sorted distinct years of the panel (the `years` property). -/
def Panel.years (p : Panel) : List Int :=
  List.insertionSort (fun a b => a ≤ b) (p.data.map (fun o => o.year)).dedup

/-- Distinct years of one person among the rows whose year is in `ys`
(`data[data[time].isin(years)].groupby(id)[time].nunique()`). -/
def distinctYearsIn (p : Panel) (pid : Int) (ys : List Int) : List Int :=
  ((p.data.filter (fun o => o.pid == pid && ys.contains o.year)).map (fun o => o.year)).dedup

/-- Embedding of `Panel.balanced` of `panel.py` (lines 139-162): keep
the rows of persons whose count of distinct years within the requested
list equals the length of that list. An empty `years` argument is falsy
in Python, so `years or self.years` falls back to the panel's own
years. -/
def Panel.balanced (p : Panel) (years : List Int) : Panel :=
  let ys := if years.isEmpty then p.years else years
  let nRequired := ys.length
  { data := p.data.filter (fun o => (distinctYearsIn p o.pid ys).length == nRequired) }

/-- Embedding of `Panel.min_periods` of `panel.py` (lines 164-188):
keep the rows of persons having at least `n` observations. The Python
method performs no validation of `n`. -/
def Panel.min_periods (p : Panel) (n : Int) : Panel :=
  { data := p.data.filter (fun o => n ≤ (countObs p o.pid : Int)) }

/-- First row attaining the maximal year of a row list
(`idxmax` returns the first position of the maximum). -/
def firstLatest (l : List Obs) : Option Obs :=
  l.foldl
    (fun acc o =>
      match acc with
      | Option.none => some o
      | some m => if m.year < o.year then some o else some m)
    Option.none

/-- Embedding of `Panel.to_cross_section` of `panel.py` (lines
119-133): with a year, the rows of that year; without, the
chronologically latest row of each person. -/
def Panel.to_cross_section (p : Panel) (year : Option Int) : List Obs :=
  match year with
  | some y => p.data.filter (fun o => o.year == y)
  | Option.none => (uniquePids p).filterMap (fun pid => firstLatest (personObs p pid))

/-! ## State-threaded public operations (for the mutation claim)

Each public operation of `Panel` is rendered as a function from the
receiver's table to the pair (operation output, receiver's table after
the call). Every pandas primitive the Python bodies use on `self.data`
(boolean-mask selection, `sort_values`, `groupby` aggregation, `copy`)
returns a new object, and no statement of those bodies assigns to
`self.data` or calls an in-place method on it, so the translation
threads the receiver's table through unchanged; an in-place write to an
alias of `self.data` would instead have produced an updated table. -/

/-- State-threaded `balanced`: output panel and receiver table after
the call. -/
def balancedSt (p : Panel) (years : List Int) : Panel × List Obs :=
  (p.balanced years, p.data)

/-- State-threaded `min_periods`. -/
def minPeriodsSt (p : Panel) (n : Int) : Panel × List Obs :=
  (p.min_periods n, p.data)

/-- State-threaded `to_cross_section`. -/
def toCrossSectionSt (p : Panel) (year : Option Int) : List Obs × List Obs :=
  (p.to_cross_section year, p.data)

/-- State-threaded `get_household_transitions` (the transition
extraction begins with `df = panel.data.copy()`, and every later write
targets that copy). -/
def getTransitionsSt (p : Panel) : List (Obs × Obs) × List Obs :=
  (get_household_transitions p, p.data)

/-! ## Panel assembly (`build_panel`, `panel.py` lines 199-354)

The year loop of `build_panel` is embedded against an environment
`env : Int → Option (List Obs)` describing, for each year, the outcome
of loading that year's family file and inner-joining it to the
individual rows: `none` models `load_family` raising
`FileNotFoundError` (the `except` branch records a warning and
`continue`s), and `some rows` models a located file whose merge
produced `rows` (possibly an empty table). -/

/-- Embedding of the `for year in sorted(years)` loop and the trailing
`if not all_years: raise` of `build_panel`: the result is the list of
skipped years (the recorded warnings) together with either the
concatenated panel rows or the `ValueError` message. -/
def build_panel (env : Int → Option (List Obs)) (years : List Int) :
    List Int × Except String (List Obs) :=
  let sortedYears := List.insertionSort (fun a b => a ≤ b) years
  (sortedYears.filter (fun y => (env y).isNone),
    if (sortedYears.filterMap env).isEmpty then
      Except.error "No data loaded. Check file paths and years."
    else
      Except.ok (sortedYears.filterMap env).flatten)

/-! ## Concrete example data (used by witnesses and counterexamples) -/

/-- A small three-row panel: person 1 observed in 2019 and 2021,
person 2 observed in 2019 only. -/
def examplePanel1 : Panel :=
  { data := [ { pid := 1, year := 2019, hh := PyVal.vint 10 },
              { pid := 1, year := 2021, hh := PyVal.vint 11 },
              { pid := 2, year := 2019, hh := PyVal.vint 10 } ] }

/-- An environment for `build_panel` in which the single year 2019 has
a locatable family file whose merge yields an empty table, and every
other year's file is missing. -/
def envEmptyMerge : Int → Option (List Obs) :=
  fun y => if y == 2019 then some [] else none

/-! ## Theorems -/

/-- A value already in `[0, 2^63)` is its own int64 representative. -/
theorem toInt64_eq_self (x : Int) (h0 : 0 ≤ x) (h1 : x < 2 ^ 63) : toInt64 x = x := by
  unfold toInt64
  omega

/-- C4 counterexample: the claimed injectivity over all non-negative
baseline ids is false of the program, whose multiply-add is int64 and
wraps: the valid pairs (18446744073709552, 616) and (1, 0) — both
sequence numbers in [0, 1000) and both ids int64-representable —
collide on person_id 1000, since 18446744073709552 * 1000 exceeds
2^63 - 1 and wraps to 384. -/
theorem resolve_identity_collision :
    resolve_identity 18446744073709552 616 = resolve_identity 1 0 ∧
      ((18446744073709552 : Int), (616 : Int)) ≠ ((1 : Int), (0 : Int)) ∧
      (0 : Int) ≤ 616 ∧ (616 : Int) < 1000 ∧ (0 : Int) ≤ 0 ∧ (0 : Int) < 1000 := by
  refine ⟨?_, by decide, by decide, by decide, by decide, by decide⟩
  unfold resolve_identity toInt64
  decide

/-- C4 (amended): the derived person identifier is deterministic, and
injective on valid pairs whose multiply-add does not overflow int64:
for non-negative ids and sequence numbers in [0, 1000) with
`id * 1000 + seq < 2^63`, equal identifiers imply equal pairs. -/
theorem resolve_identity_injective (a b c d : Int)
    (ha : 0 ≤ a) (hc : 0 ≤ c)
    (hb : 0 ≤ b ∧ b < 1000) (hd : 0 ≤ d ∧ d < 1000)
    (hra : a * 1000 + b < 2 ^ 63) (hrc : c * 1000 + d < 2 ^ 63) :
    (resolve_identity a b = resolve_identity c d ↔ (a, b) = (c, d)) ∧
      resolve_identity a b = resolve_identity a b := by
  refine ⟨?_, rfl⟩
  unfold resolve_identity
  rw [toInt64_eq_self (a * 1000 + b) (by omega) hra,
      toInt64_eq_self (c * 1000 + d) (by omega) hrc,
      Prod.mk.injEq]
  omega

/-- Witness for C4 at the concrete pair (7, 5) against (7, 5), well
inside the int64 range. -/
theorem resolve_identity_injective_witness :
    (resolve_identity 7 5 = resolve_identity 7 5 ↔ ((7 : Int), (5 : Int)) = (7, 5)) ∧
      resolve_identity 7 5 = resolve_identity 7 5 :=
  resolve_identity_injective 7 5 7 5 (by norm_num) (by norm_num) (by norm_num) (by norm_num)
    (by norm_num) (by norm_num)

/-- C5: `get_sample_type` returns the stratum whose inclusive range
contains the code, the catch-all UNKNOWN exactly when no documented
range contains it (it is total, so it never raises), and on the
concrete codes 1500, 5500, 3100, 3000 it returns SRC, SEO, IMMIGRANT,
UNKNOWN respectively. -/
theorem get_sample_type_ranges :
    (∀ c : Int,
      (get_sample_type c = SampleType.SRC ↔ inAnyRange c (rangesOf SampleType.SRC) = true) ∧
      (get_sample_type c = SampleType.SEO ↔ inAnyRange c (rangesOf SampleType.SEO) = true) ∧
      (get_sample_type c = SampleType.IMMIGRANT ↔
        inAnyRange c (rangesOf SampleType.IMMIGRANT) = true) ∧
      (get_sample_type c = SampleType.UNKNOWN ↔
        inAnyRange c (rangesOf SampleType.SRC) = false ∧
        inAnyRange c (rangesOf SampleType.SEO) = false ∧
        inAnyRange c (rangesOf SampleType.IMMIGRANT) = false)) ∧
    get_sample_type 1500 = SampleType.SRC ∧
    get_sample_type 5500 = SampleType.SEO ∧
    get_sample_type 3100 = SampleType.IMMIGRANT ∧
    get_sample_type 3000 = SampleType.UNKNOWN := by
  refine ⟨?_, by decide, by decide, by decide, by decide⟩
  intro c
  simp only [get_sample_type, scanRanges, SAMPLE_RANGES, rangesOf, inAnyRange, List.find?]
  split_ifs <;> simp_all <;> omega

/-- C10: the transition classifier is total with range restricted to
the eight categories actually produced; MOVE_WITH_FAMILY, DEATH and
BIRTH are never returned. -/
theorem classify_transition_range (hhFrom hhTo relFrom relTo marFrom marTo ageFrom ageTo : PyVal) :
    (classify_transition hhFrom hhTo relFrom relTo marFrom marTo ageFrom ageTo
        = TransitionType.same_household ∨
     classify_transition hhFrom hhTo relFrom relTo marFrom marTo ageFrom ageTo
        = TransitionType.marriage ∨
     classify_transition hhFrom hhTo relFrom relTo marFrom marTo ageFrom ageTo
        = TransitionType.divorce ∨
     classify_transition hhFrom hhTo relFrom relTo marFrom marTo ageFrom ageTo
        = TransitionType.widowhood ∨
     classify_transition hhFrom hhTo relFrom relTo marFrom marTo ageFrom ageTo
        = TransitionType.leave_parental ∨
     classify_transition hhFrom hhTo relFrom relTo marFrom marTo ageFrom ageTo
        = TransitionType.splitoff ∨
     classify_transition hhFrom hhTo relFrom relTo marFrom marTo ageFrom ageTo
        = TransitionType.join_household ∨
     classify_transition hhFrom hhTo relFrom relTo marFrom marTo ageFrom ageTo
        = TransitionType.other) ∧
    classify_transition hhFrom hhTo relFrom relTo marFrom marTo ageFrom ageTo
        ≠ TransitionType.move_with_family ∧
    classify_transition hhFrom hhTo relFrom relTo marFrom marTo ageFrom ageTo
        ≠ TransitionType.death ∧
    classify_transition hhFrom hhTo relFrom relTo marFrom marTo ageFrom ageTo
        ≠ TransitionType.birth := by
  unfold classify_transition classifyRel classifyRelTail
  split_ifs <;> simp

/-- C9: every public filtering/derivation operation leaves the
receiver's table unchanged: the state-threaded renderings of
`balanced`, `min_periods`, `to_cross_section` and the transition
extraction all return the receiver's table as it was before the
call. -/
theorem panel_operations_pure (p : Panel) (years : List Int) (n : Int) (y : Option Int) :
    (balancedSt p years).2 = p.data ∧
    (minPeriodsSt p n).2 = p.data ∧
    (toCrossSectionSt p y).2 = p.data ∧
    (getTransitionsSt p).2 = p.data ∧
    (balancedSt p years).1 = p.balanced years ∧
    (minPeriodsSt p n).1 = p.min_periods n ∧
    (toCrossSectionSt p y).1 = p.to_cross_section y ∧
    (getTransitionsSt p).1 = get_household_transitions p :=
  ⟨rfl, rfl, rfl, rfl, rfl, rfl, rfl, rfl⟩

/-- The two relationship blocks of `_classify_transition` collapse to a
single guarded first-match rule chain 3a, 3b, 3c, 4. -/
theorem classifyRel_eq_chain (relFrom relTo : PyVal) :
    classifyRel relFrom relTo =
      (if pyIsNotNone relFrom ∧ pyIsNotNone relTo ∧ pyEqInt relFrom 3 ∧ pyEqInt relTo 1 then
        TransitionType.leave_parental
      else if pyIsNotNone relFrom ∧ pyIsNotNone relTo ∧ ¬ pyEqInt relFrom 1 ∧ pyEqInt relTo 1 then
        TransitionType.splitoff
      else if pyIsNotNone relFrom ∧ pyIsNotNone relTo ∧ pyEqInt relFrom 1 ∧ ¬ pyEqInt relTo 1 then
        TransitionType.join_household
      else TransitionType.other) := by
  unfold classifyRel classifyRelTail
  split_ifs <;> first | rfl | simp_all

/-- The relationship rules never produce SAME_HOUSEHOLD. -/
theorem classifyRel_ne_same_household (relFrom relTo : PyVal) :
    classifyRel relFrom relTo ≠ TransitionType.same_household := by
  unfold classifyRel classifyRelTail
  split_ifs <;> simp

/-- C1: the classifier is extensionally equal to the single
first-match-wins rule chain written from the specification (rule order
1, 2a, 2b, 2c, 3a, 3b, 3c, 4, each marital/relationship rule guarded by
both of its codes being present), and in particular marital rules fire
before relationship rules: divorced (4) to married (1) with household
keys comparing unequal yields MARRIAGE whatever the relationship
codes. -/
theorem classify_transition_rule_order :
    (∀ hhFrom hhTo relFrom relTo marFrom marTo ageFrom ageTo : PyVal,
      classify_transition hhFrom hhTo relFrom relTo marFrom marTo ageFrom ageTo
        = classify_transition_ruleChain hhFrom hhTo relFrom relTo marFrom marTo) ∧
    (∀ hhFrom hhTo relFrom relTo ageFrom ageTo : PyVal, pyEq hhFrom hhTo = false →
      classify_transition hhFrom hhTo relFrom relTo (PyVal.vint 4) (PyVal.vint 1) ageFrom ageTo
        = TransitionType.marriage) := by
  constructor
  · intro hhFrom hhTo relFrom relTo marFrom marTo ageFrom ageTo
    unfold classify_transition classify_transition_ruleChain
    rw [classifyRel_eq_chain]
    by_cases hE : pyEq hhFrom hhTo = true
    · rw [if_pos hE, if_pos hE]
    rw [if_neg hE, if_neg hE]
    by_cases hGm : pyIsNotNone marFrom = true ∧ pyIsNotNone marTo = true
    · rw [if_pos hGm]
      by_cases hm1 : pyIn marFrom [2, 4, 5] = true ∧ pyEqInt marTo 1 = true
      · rw [if_pos hm1, if_pos ⟨hGm.1, hGm.2, hm1.1, hm1.2⟩]
      have n1 : ¬(pyIsNotNone marFrom = true ∧ pyIsNotNone marTo = true ∧
          pyIn marFrom [2, 4, 5] = true ∧ pyEqInt marTo 1 = true) := by tauto
      rw [if_neg hm1, if_neg n1]
      by_cases hm2 : pyEqInt marFrom 1 = true ∧ pyIn marTo [4, 5] = true
      · rw [if_pos hm2, if_pos ⟨hGm.1, hGm.2, hm2.1, hm2.2⟩]
      have n2 : ¬(pyIsNotNone marFrom = true ∧ pyIsNotNone marTo = true ∧
          pyEqInt marFrom 1 = true ∧ pyIn marTo [4, 5] = true) := by tauto
      rw [if_neg hm2, if_neg n2]
      by_cases hm3 : pyEqInt marFrom 1 = true ∧ pyEqInt marTo 3 = true
      · rw [if_pos hm3, if_pos ⟨hGm.1, hGm.2, hm3.1, hm3.2⟩]
      have n3 : ¬(pyIsNotNone marFrom = true ∧ pyIsNotNone marTo = true ∧
          pyEqInt marFrom 1 = true ∧ pyEqInt marTo 3 = true) := by tauto
      rw [if_neg hm3, if_neg n3]
    · have n1 : ¬(pyIsNotNone marFrom = true ∧ pyIsNotNone marTo = true ∧
          pyIn marFrom [2, 4, 5] = true ∧ pyEqInt marTo 1 = true) := by tauto
      have n2 : ¬(pyIsNotNone marFrom = true ∧ pyIsNotNone marTo = true ∧
          pyEqInt marFrom 1 = true ∧ pyIn marTo [4, 5] = true) := by tauto
      have n3 : ¬(pyIsNotNone marFrom = true ∧ pyIsNotNone marTo = true ∧
          pyEqInt marFrom 1 = true ∧ pyEqInt marTo 3 = true) := by tauto
      rw [if_neg hGm, if_neg n1, if_neg n2, if_neg n3]
  · intro hhFrom hhTo relFrom relTo ageFrom ageTo h
    unfold classify_transition
    rw [if_neg (by simp [h]), if_pos (by decide), if_pos (by decide)]

/-- Witness for C1: the rule-chain agreement at one concrete input, and
the marriage scenario at concrete household keys 1 and 2 with
relationship codes child (3) to head (1). -/
theorem classify_transition_rule_order_witness :
    classify_transition (PyVal.vint 5) (PyVal.vint 5) PyVal.none PyVal.none PyVal.none
        PyVal.none PyVal.none PyVal.none
      = classify_transition_ruleChain (PyVal.vint 5) (PyVal.vint 5) PyVal.none PyVal.none
          PyVal.none PyVal.none ∧
    classify_transition (PyVal.vint 1) (PyVal.vint 2) (PyVal.vint 3) (PyVal.vint 1)
        (PyVal.vint 4) (PyVal.vint 1) PyVal.none PyVal.none = TransitionType.marriage :=
  ⟨classify_transition_rule_order.1 (PyVal.vint 5) (PyVal.vint 5) PyVal.none PyVal.none
      PyVal.none PyVal.none PyVal.none PyVal.none,
    classify_transition_rule_order.2 (PyVal.vint 1) (PyVal.vint 2) (PyVal.vint 3) (PyVal.vint 1)
      PyVal.none PyVal.none (by decide)⟩

/-- C8 counterexample: a pair whose household key is absent on both
sides (Python `None`, the `Series.get` default) satisfies
`None == None`, so rule 1 fires and the pair is classified
SAME_HOUSEHOLD even though the relationship codes would classify it as
LEAVE_PARENTAL — the claim that such a pair is never SAME_HOUSEHOLD is
false. -/
theorem both_none_household_keys_same_household :
    classify_transition PyVal.none PyVal.none (PyVal.vint 3) (PyVal.vint 1)
      PyVal.none PyVal.none PyVal.none PyVal.none = TransitionType.same_household := rfl

/-- C8 (amended): a pair is classified SAME_HOUSEHOLD exactly when its
household keys compare equal under Python equality; a key missing on
exactly one side, or a NaN key on either side, never compares equal
(so classification proceeds to the marital and relationship rules), but
two absent (None) keys compare equal and do yield SAME_HOUSEHOLD. -/
theorem same_household_iff_python_eq :
    (∀ hhFrom hhTo relFrom relTo marFrom marTo ageFrom ageTo : PyVal,
      classify_transition hhFrom hhTo relFrom relTo marFrom marTo ageFrom ageTo
        = TransitionType.same_household ↔ pyEq hhFrom hhTo = true) ∧
    pyEq PyVal.none PyVal.none = true ∧
    (∀ v : PyVal, pyEq PyVal.nan v = false ∧ pyEq v PyVal.nan = false) ∧
    (∀ n : Int, pyEq PyVal.none (PyVal.vint n) = false ∧
      pyEq (PyVal.vint n) PyVal.none = false) := by
  refine ⟨?_, rfl, ?_, fun n => ⟨rfl, rfl⟩⟩
  · intro hhFrom hhTo relFrom relTo marFrom marTo ageFrom ageTo
    unfold classify_transition
    split_ifs <;> simp_all [classifyRel_ne_same_household]
  · intro v
    cases v <;> exact ⟨rfl, rfl⟩

/-- C6: `balanced(Y)` for non-empty `Y` keeps exactly the rows of
persons whose number of distinct observation years within `Y` equals
the length of `Y`, as a sublist of the original table; rows of every
other person are dropped. -/
theorem balanced_subset_exact_years (p : Panel) (Y : List Int) (hY : Y ≠ []) :
    (p.balanced Y).data.Sublist p.data ∧
      (∀ o, o ∈ (p.balanced Y).data ↔
        o ∈ p.data ∧ (distinctYearsIn p o.pid Y).length = Y.length) := by
  have hne : Y.isEmpty = false := by
    cases Y with
    | nil => exact absurd rfl hY
    | cons a t => rfl
  unfold Panel.balanced
  simp only [hne, Bool.false_eq_true, if_false]
  refine ⟨List.filter_sublist _, ?_⟩
  intro o
  simp [List.mem_filter]

/-- Witness for C6 at a concrete panel and year list, with the
membership equivalence instantiated at the first row. -/
theorem balanced_subset_exact_years_witness :
    (examplePanel1.balanced [2019]).data.Sublist examplePanel1.data ∧
      ({ pid := 1, year := 2019, hh := PyVal.vint 10 } ∈ (examplePanel1.balanced [2019]).data ↔
        ({ pid := 1, year := 2019, hh := PyVal.vint 10 } : Obs) ∈ examplePanel1.data ∧
          (distinctYearsIn examplePanel1 1 [2019]).length = ([2019] : List Int).length) :=
  ⟨(balanced_subset_exact_years examplePanel1 [2019] (by decide)).1,
    (balanced_subset_exact_years examplePanel1 [2019] (by decide)).2
      { pid := 1, year := 2019, hh := PyVal.vint 10 }⟩

/-- C7 counterexample: `min_periods` performs no validation of its
argument — called with n = 0 or a negative n on a concrete panel it
raises nothing and returns the panel's rows unchanged, where the claim
says an InvalidArgument error is raised for n < 1. -/
theorem min_periods_no_validation :
    (examplePanel1.min_periods 0).data = examplePanel1.data ∧
      (examplePanel1.min_periods (-3)).data = examplePanel1.data := by decide

/-- C7 (amended): `min_periods` never raises; for every `n` the result
is the sublist of rows of persons with observation count at least `n`
(each such person keeping all rows), `min_periods 1` returns the table
unchanged, and every `n < 1` also returns the table unchanged. -/
theorem min_periods_filter (p : Panel) (n : Int) :
    ((p.min_periods n).data.Sublist p.data) ∧
    (∀ o, o ∈ (p.min_periods n).data ↔ o ∈ p.data ∧ n ≤ (countObs p o.pid : Int)) ∧
    ((p.min_periods 1).data = p.data) ∧
    (n < 1 → (p.min_periods n).data = p.data) := by
  have hpos : ∀ o ∈ p.data, 0 < (countObs p o.pid : Int) := by
    intro o ho
    have hmem : o ∈ p.data.filter (fun x => x.pid == o.pid) := by
      rw [List.mem_filter]
      exact ⟨ho, by simp⟩
    have := List.length_pos_of_mem hmem
    unfold countObs personObs
    omega
  refine ⟨List.filter_sublist _, ?_, ?_, ?_⟩
  · intro o
    simp [Panel.min_periods, List.mem_filter]
  · unfold Panel.min_periods
    rw [List.filter_eq_self]
    intro o ho
    simp only [decide_eq_true_eq]
    have := hpos o ho
    omega
  · intro hn
    unfold Panel.min_periods
    rw [List.filter_eq_self]
    intro o ho
    simp only [decide_eq_true_eq]
    have := hpos o ho
    omega

/-- Witness for C7 at a concrete panel with n = 0, membership
instantiated at the first row and the n < 1 branch discharged. -/
theorem min_periods_filter_witness :
    ((examplePanel1.min_periods 0).data.Sublist examplePanel1.data) ∧
      ({ pid := 1, year := 2019, hh := PyVal.vint 10 } ∈ (examplePanel1.min_periods 0).data ↔
        ({ pid := 1, year := 2019, hh := PyVal.vint 10 } : Obs) ∈ examplePanel1.data ∧
          (0 : Int) ≤ (countObs examplePanel1 1 : Int)) ∧
      (examplePanel1.min_periods 0).data = examplePanel1.data :=
  ⟨(min_periods_filter examplePanel1 0).1,
    (min_periods_filter examplePanel1 0).2.1 { pid := 1, year := 2019, hh := PyVal.vint 10 },
    (min_periods_filter examplePanel1 0).2.2.2 (by norm_num)⟩

/-- C2 counterexample: a single requested year whose family file is
located but whose merge yields zero rows — `build_panel` returns a
normal (empty) panel rather than raising, although zero requested years
produced any merged rows; the claimed "raises iff zero years produced
merged rows" equivalence fails in this direction. -/
theorem build_panel_ok_on_empty_merge :
    (build_panel envEmptyMerge [2019]).2 = Except.ok ([] : List Obs) ∧
      envEmptyMerge 2019 = some [] := ⟨rfl, rfl⟩

/-- C2 (amended): `build_panel` records a warning for (exactly) each
requested year whose family file cannot be located and continues; it
raises the no-data error exactly when every requested year's family
file is missing, and whenever at least one year's file is located —
even with an empty merge — it returns the concatenation of the located
years' merged rows in year order. -/
theorem build_panel_skip_and_raise (env : Int → Option (List Obs)) (years : List Int) :
    ((∃ msg, (build_panel env years).2 = Except.error msg) ↔
      ∀ y ∈ years, env y = Option.none) ∧
    ((build_panel env years).1
      = (List.insertionSort (fun a b => a ≤ b) years).filter (fun y => (env y).isNone)) ∧
    ((∃ y ∈ years, env y ≠ Option.none) →
      (build_panel env years).2
        = Except.ok ((List.insertionSort (fun a b => a ≤ b) years).filterMap env).flatten) := by
  have hmem : ∀ y : Int, y ∈ List.insertionSort (fun a b => a ≤ b) years ↔ y ∈ years :=
    fun y => (List.perm_insertionSort (fun a b => a ≤ b) years).mem_iff
  have hchar : (List.insertionSort (fun a b => a ≤ b) years).filterMap env = [] ↔
      ∀ y ∈ years, env y = Option.none := by
    rw [List.filterMap_eq_nil_iff]
    constructor
    · intro h y hy
      exact h y ((hmem y).mpr hy)
    · intro h y hy
      exact h y ((hmem y).mp hy)
  refine ⟨?_, rfl, ?_⟩
  · unfold build_panel
    by_cases hempty : ((List.insertionSort (fun a b => a ≤ b) years).filterMap env).isEmpty
    · simp only [hempty, if_true]
      simp only [List.isEmpty_iff] at hempty
      exact ⟨fun _ => hchar.mp hempty, fun _ => ⟨_, rfl⟩⟩
    · simp only [hempty, Bool.false_eq_true, if_false]
      constructor
      · rintro ⟨msg, hmsg⟩
        simp only [reduceCtorEq] at hmsg
      · intro hall
        rw [List.isEmpty_iff] at hempty
        exact absurd (hchar.mpr hall) hempty
  · rintro ⟨y, hy, hne⟩
    obtain ⟨v, hv⟩ := Option.ne_none_iff_exists.mp hne
    have hv2 : env y = some v := hv.symm
    have hmemfm : v ∈ (List.insertionSort (fun a b => a ≤ b) years).filterMap env :=
      List.mem_filterMap.mpr ⟨y, (hmem y).mpr hy, hv2⟩
    have hnonempty :
        ((List.insertionSort (fun a b => a ≤ b) years).filterMap env).isEmpty = false := by
      rw [List.isEmpty_eq_false_iff_exists_mem]
      exact ⟨v, hmemfm⟩
    unfold build_panel
    simp only [hnonempty, Bool.false_eq_true, if_false]

/-- Witness for C2 at the concrete environment with a located 2019
family file: the warning list is empty and the result is the empty
merged table, not an error. -/
theorem build_panel_skip_and_raise_witness :
    ((build_panel envEmptyMerge [2019]).1
      = (List.insertionSort (fun a b => a ≤ b) [2019]).filter (fun y => (envEmptyMerge y).isNone)) ∧
    ((build_panel envEmptyMerge [2019]).2
      = Except.ok ((List.insertionSort (fun a b => a ≤ b) [2019]).filterMap envEmptyMerge).flatten) :=
  ⟨(build_panel_skip_and_raise envEmptyMerge [2019]).2.1,
    (build_panel_skip_and_raise envEmptyMerge [2019]).2.2 ⟨2019, by decide, by decide⟩⟩

/-- Adjacent pairing of a list produces one pair fewer than the list
has elements. -/
theorem adjPairs_length : ∀ l : List Obs, (adjPairs l).length = l.length - 1
  | [] => rfl
  | [_] => rfl
  | a :: b :: rest => by
    have ih := adjPairs_length (b :: rest)
    simp only [adjPairs, List.length_cons] at ih ⊢
    omega

/-- Every adjacent pair arises from two consecutive positions of the
list. -/
theorem adjPairs_mem_decomp :
    ∀ (l : List Obs) (x : Obs × Obs), x ∈ adjPairs l →
      ∃ l1 l2, l = l1 ++ x.1 :: x.2 :: l2
  | [], x, hx => by simp [adjPairs] at hx
  | [a], x, hx => by simp [adjPairs] at hx
  | a :: b :: rest, x, hx => by
    rcases List.mem_cons.mp hx with h | h
    · exact ⟨[], rest, by simp [h]⟩
    · obtain ⟨l1, l2, hl⟩ := adjPairs_mem_decomp (b :: rest) x h
      exact ⟨a :: l1, l2, by rw [List.cons_append, ← hl]⟩

/-- In a year-sorted list, an adjacent pair is chronologically ordered
and no element of the list lies strictly between its two years. -/
theorem sorted_adjPairs_between (l : List Obs) (hs : List.Sorted byYear l)
    (x : Obs × Obs) (hx : x ∈ adjPairs l) :
    x.1.year ≤ x.2.year ∧ ∀ c ∈ l, ¬(x.1.year < c.year ∧ c.year < x.2.year) := by
  obtain ⟨l1, l2, rfl⟩ := adjPairs_mem_decomp l x hx
  have hp : List.Pairwise byYear (l1 ++ x.1 :: x.2 :: l2) := hs
  rw [List.pairwise_append] at hp
  obtain ⟨_, h2, hcross⟩ := hp
  rw [List.pairwise_cons] at h2
  obtain ⟨hx1, h3⟩ := h2
  rw [List.pairwise_cons] at h3
  obtain ⟨hx2, _⟩ := h3
  refine ⟨hx1 x.2 (List.mem_cons_self _ _), ?_⟩
  intro c hc
  rcases List.mem_append.mp hc with hc1 | hc2
  · have hle : c.year ≤ x.1.year := hcross c hc1 x.1 (List.mem_cons_self _ _)
    omega
  · rcases List.mem_cons.mp hc2 with rfl | hc3
    · omega
    rcases List.mem_cons.mp hc3 with rfl | hc4
    · omega
    · have hle : x.2.year ≤ c.year := hx2 c hc4
      omega

/-- Every row in a person's group carries that person's id. -/
theorem personObs_pid (p : Panel) (pid : Int) : ∀ o ∈ personObs p pid, o.pid = pid := by
  intro o ho
  have := (List.mem_filter.mp ho).2
  simpa using this

/-- Both components of a person's transition row are observations of
that person. -/
theorem transitionsOf_mem_pid (p : Panel) (pid : Int) (x : Obs × Obs)
    (hx : x ∈ transitionsOf p pid) :
    x.1.pid = pid ∧ x.2.pid = pid ∧ x.1 ∈ personObs p pid ∧ x.2 ∈ personObs p pid := by
  unfold transitionsOf at hx
  obtain ⟨l1, l2, hl⟩ := adjPairs_mem_decomp _ x hx
  have h1 : x.1 ∈ List.insertionSort byYear (personObs p pid) := by rw [hl]; simp
  have h2 : x.2 ∈ List.insertionSort byYear (personObs p pid) := by rw [hl]; simp
  rw [List.mem_insertionSort] at h1 h2
  exact ⟨personObs_pid p pid x.1 h1, personObs_pid p pid x.2 h2, h1, h2⟩

/-- A person appears among the panel's group keys exactly when they
have at least one observation. -/
theorem countObs_pos_iff (p : Panel) (pid : Int) :
    0 < countObs p pid ↔ pid ∈ uniquePids p := by
  unfold countObs personObs uniquePids
  rw [List.mem_insertionSort, List.mem_dedup, List.mem_map, List.length_pos]
  constructor
  · intro h
    cases hf : p.data.filter (fun o => o.pid == pid) with
    | nil => exact absurd hf h
    | cons a t =>
      have ha : a ∈ p.data.filter (fun o => o.pid == pid) := hf ▸ List.mem_cons_self a t
      have hma := List.mem_filter.mp ha
      exact ⟨a, hma.1, by simpa using hma.2⟩
  · rintro ⟨o, ho, hpid⟩ hnil
    have hmem : o ∈ p.data.filter (fun o => o.pid == pid) :=
      List.mem_filter.mpr ⟨ho, by simp [hpid]⟩
    simp [hnil] at hmem

/-- The group keys of the panel are distinct. -/
theorem uniquePids_nodup (p : Panel) : (uniquePids p).Nodup :=
  (List.perm_insertionSort _ _).nodup_iff.mpr (List.nodup_dedup _)

/-- Restricting the stacked transition table to one person selects
exactly that person's block. -/
theorem flatMap_filter_pid (p : Panel) (pid : Int) :
    ∀ L : List Int, L.Nodup →
      ((L.flatMap (fun a => transitionsOf p a)).filter (fun x => x.1.pid == pid)).length
        = if pid ∈ L then (transitionsOf p pid).length else 0 := by
  intro L
  induction L with
  | nil => intro _; simp
  | cons a t ih =>
    intro hnd
    rw [List.nodup_cons] at hnd
    rw [List.flatMap_cons, List.filter_append, List.length_append]
    by_cases hpa : a = pid
    · subst hpa
      have hblock : (transitionsOf p a).filter (fun x => x.1.pid == a) = transitionsOf p a :=
        List.filter_eq_self.mpr (fun x hx => by
          simp [(transitionsOf_mem_pid p a x hx).1])
      rw [hblock, ih hnd.2, if_neg hnd.1, if_pos (List.mem_cons_self a t)]
      omega
    · have hblock : (transitionsOf p a).filter (fun x => x.1.pid == pid) = [] := by
        rw [List.filter_eq_nil_iff]
        intro x hx
        simp [(transitionsOf_mem_pid p a x hx).1]
        exact hpa
      rw [hblock, ih hnd.2]
      by_cases hmem : pid ∈ t
      · simp [hmem, List.mem_cons]
      · simp [hmem, List.mem_cons, Ne.symm hpa]

/-- C3: in the transition extraction, a person with k observations
contributes exactly k-1 rows (so one observation contributes none), no
row pairs observations of two persons, and each row pairs an
observation with that person's chronologically next one: the pair is
ordered by year and no observation of the person lies strictly between
the paired years, whatever the year gap. -/
theorem transitions_rows_per_person (p : Panel) :
    (∀ pid : Int, ((get_household_transitions p).filter (fun x => x.1.pid == pid)).length
        = countObs p pid - 1) ∧
    (∀ x ∈ get_household_transitions p, x.1.pid = x.2.pid) ∧
    (∀ pid : Int, ∀ x ∈ transitionsOf p pid,
      x.1.pid = pid ∧ x.2.pid = pid ∧ x.1.year ≤ x.2.year ∧
        ∀ c ∈ personObs p pid, ¬(x.1.year < c.year ∧ c.year < x.2.year)) := by
  refine ⟨?_, ?_, ?_⟩
  · intro pid
    unfold get_household_transitions
    rw [flatMap_filter_pid p pid (uniquePids p) (uniquePids_nodup p)]
    by_cases hmem : pid ∈ uniquePids p
    · rw [if_pos hmem]
      unfold transitionsOf countObs
      rw [adjPairs_length, List.length_insertionSort]
    · rw [if_neg hmem]
      have hz : ¬ 0 < countObs p pid := fun h => hmem ((countObs_pos_iff p pid).mp h)
      omega
  · intro x hx
    unfold get_household_transitions at hx
    obtain ⟨a, _, hxa⟩ := List.mem_flatMap.mp hx
    have h := transitionsOf_mem_pid p a x hxa
    rw [h.1, h.2.1]
  · intro pid x hx
    have h := transitionsOf_mem_pid p pid x hx
    have hbet := sorted_adjPairs_between _
      (List.sorted_insertionSort byYear (personObs p pid)) x
      (by unfold transitionsOf at hx; exact hx)
    refine ⟨h.1, h.2.1, hbet.1, ?_⟩
    intro c hc
    exact hbet.2 c ((List.mem_insertionSort byYear).mpr hc)

/-- Witness for C3 at a concrete panel: person 1 has two observations
and one transition row; that row pairs two observations of person 1 in
chronological order with nothing in between. -/
theorem transitions_rows_per_person_witness :
    ((get_household_transitions examplePanel1).filter (fun x => x.1.pid == 1)).length
        = countObs examplePanel1 1 - 1 ∧
    (({ pid := 1, year := 2019, hh := PyVal.vint 10 },
        ({ pid := 1, year := 2021, hh := PyVal.vint 11 } : Obs)) : Obs × Obs).1.pid
      = (({ pid := 1, year := 2019, hh := PyVal.vint 10 },
        ({ pid := 1, year := 2021, hh := PyVal.vint 11 } : Obs)) : Obs × Obs).2.pid ∧
    ¬((2019 : Int) < 2019 ∧ (2019 : Int) < 2021) :=
  ⟨(transitions_rows_per_person examplePanel1).1 1,
    (transitions_rows_per_person examplePanel1).2.1
      ({ pid := 1, year := 2019, hh := PyVal.vint 10 },
        { pid := 1, year := 2021, hh := PyVal.vint 11 }) (by decide),
    ((transitions_rows_per_person examplePanel1).2.2 1
      ({ pid := 1, year := 2019, hh := PyVal.vint 10 },
        { pid := 1, year := 2021, hh := PyVal.vint 11 }) (by decide)).2.2.2
      { pid := 1, year := 2019, hh := PyVal.vint 10 } (by decide)⟩

end PSID
